import Mathlib

/-!
Verification development for the utterance-segmentation and
pipeline-orchestration engine of a voice call-center assistant
(`backend/pipeline/{vad,asr,tts,pipeline_manager}.py`).

Modelling conventions, fixed once for the whole file:

* Audio byte buffers carry fixed-rate mono 16-bit PCM, so every buffer is
  a whole number of 2-byte samples on every code path the claims touch.
  We model audio buffers at sample granularity, as `List Int` of signed
  16-bit sample values; a length of `n` samples corresponds to `2*n`
  bytes in the source.  Byte thresholds of the source are converted
  accordingly and noted at their definition sites.
* `time.time()` is modelled by an explicit `now : ℤ` argument in
  milliseconds (the detector's native unit, `time.time() * 1000`);
  second-valued thresholds of the source are scaled by 1000 and noted.
* Acoustic speech probabilities in `[0, 1]` are modelled in millionths
  (`0.25 ↦ 250000 : ℤ`); all probability comparisons of the source are
  scaled accordingly, and the averaged comparison
  `sum(ps[-5:]) / 5 < thr` is encoded as the exact cross-multiplied
  `sum(ps[-5:]) < 5 * thr`.
* The duration check `len(a) / 16000 < d` is encoded exactly as
  `1000 * len(a) < 16000 * d_ms`, and the energy check
  `sqrt(mean((s/32768)^2)) < t` (with `t` in millionths) exactly as
  `10^12 * sum(s^2) < len * t^2 * 2^30`: both sides nonnegative,
  squaring and scaling by positive constants are strictly monotone, so
  the encodings agree with the source on every input.
* The float audio array handed to the transcription model
  (`audio / 32768`, then peak-normalised to 0.8) is kept exactly over
  `ℚ`; it never influences the control flow of the embedded code.
* Cryptographic content fingerprints (`hashlib.md5/sha256(..)[:16]`)
  are modelled as collision-free, i.e. by the fingerprinted content
  itself.  Every theorem below uses only the `equal inputs → equal
  fingerprints` direction, so the abstraction is conservative.
* External collaborators (the Silero acoustic model, the Whisper
  transcription model, the RAG backend and the TTS engine) are
  modelled as oracle functions, reflecting the call contracts in the
  source: each call site converts collaborator failure into a value
  (silence, empty text, fallback string, placeholder audio), so the
  oracles are total.  The single pipeline deadline
  (`asyncio.timeout(processing_timeout)`) is modelled by oracle flags
  saying at which stage, if any, the deadline expires.
-/

namespace CallCenter

/-- PCM audio at sample granularity: each `Int` is one signed 16-bit
sample, i.e. two bytes of the source's byte buffers. -/
abbrev Audio := List Int

/-- Synthesised TTS audio, an opaque byte string (`List Nat`). -/
abbrev TtsBytes := List Nat

/-- Collaborator oracles (see the module docstring).  `vadModel` returns
the speech probability in millionths, or `none` when Silero inference
raises (`vad.py` line 146: the sub-frame is then skipped).
`transcribe ultraFast audio isPartial` covers both `_transcribe_audio`
and `_transcribe_audio_ultra_fast` (the mode only changes model
hyperparameters).  `dlFinal`/`dlRag`/`dlTts` flag the pipeline deadline
expiring during the finalize / respond / synthesize stage. -/
structure Oracles where
  vadModel : Audio → Option ℤ
  transcribe : Bool → List ℚ → Bool → String
  rag : String → String
  synth : String → TtsBytes
  dlFinal : Bool := false
  dlRag : Bool := false
  dlTts : Bool := false

/-! ## Speech-activity detector (`vad.py`, class `VadWrapper`) -/

/-- Configuration fields of `VadWrapper` that the claims touch:
threshold and predictive threshold in millionths, trailing-silence
threshold in milliseconds. -/
structure VadCfg where
  threshold : ℤ
  max_tail_ms : ℤ
  predictive_threshold : ℤ

/-- The detector configuration constructed by `PipelineManager.__init__`
(`pipeline_manager.py` lines 50-55): `threshold=0.25`, `max_tail_ms=150`;
`predictive_threshold = 0.5` from `vad.py` line 44. -/
def vadCfgD : VadCfg := { threshold := 250000, max_tail_ms := 150, predictive_threshold := 500000 }

/-- Mutable state of `VadWrapper`.  `recent_probabilities` is the
`deque(maxlen=10)` of `vad.py` line 45, most recent sample last.
Omitted as dead state: `_audio_buffer`/`_accumulated_samples`
(`vad.py` lines 39-40) are cleared by `reset` and never written
anywhere else — in particular `is_speech` never stores audio in them —
and `speech_momentum` (line 274) is written but never read. -/
structure VadState where
  end_of_utterance : Bool
  last_speech_time : ℤ
  silence_start : Option ℤ
  was_speaking : Bool
  last_speech_result : Bool
  utterance_processed : Bool
  recent_probabilities : List ℤ
deriving DecidableEq

/-- `VadWrapper.reset` (`vad.py` lines 53-63).  Note that it does not
clear `recent_probabilities`. -/
def vadReset (s : VadState) : VadState :=
  { s with
    end_of_utterance := false
    last_speech_time := 0
    silence_start := none
    was_speaking := false
    last_speech_result := false
    utterance_processed := false }

/-- The detector state right after `__init__` (which calls `reset` on
fresh fields, `vad.py` line 51). -/
def vadInit : VadState :=
  { end_of_utterance := false
    last_speech_time := 0
    silence_start := none
    was_speaking := false
    last_speech_result := false
    utterance_processed := false
    recent_probabilities := [] }

/-- Append to a `deque(maxlen := m)`: the oldest entries are evicted so
that at most `m` remain. -/
def dequePush (m : Nat) (ps : List ℤ) (p : ℤ) : List ℤ :=
  let l := ps ++ [p]
  l.drop (l.length - m)

/-- The `k` most recent entries of a probability history
(`probs[-k:]`). -/
def lastK (k : Nat) (ps : List ℤ) : List ℤ :=
  ps.drop (ps.length - k)

/-- `VadWrapper._update_speech_state` (`vad.py` lines 231-274), with the
ambient `time.time() * 1000` passed as `nowMs`.  The silence branch
fires only while speaking with the edge not yet consumed; accumulated
silence reaching `max_tail_ms` sets the utterance-ended edge. -/
def updateSpeechState (cfg : VadCfg) (nowMs : ℤ) (isSp : Bool) (p : ℤ) (s : VadState) :
    VadState :=
  let s : VadState :=
    { s with recent_probabilities := dequePush 10 s.recent_probabilities p }
  if isSp then
    let s : VadState :=
      if !s.was_speaking then
        { s with was_speaking := true, end_of_utterance := false,
                 utterance_processed := false, silence_start := none }
      else s
    { s with last_speech_time := nowMs }
  else
    if s.was_speaking && !s.utterance_processed then
      let start := s.silence_start.getD nowMs
      let s : VadState := { s with silence_start := some start }
      if cfg.max_tail_ms ≤ nowMs - start then
        { s with end_of_utterance := true, was_speaking := false }
      else s
    else s

/-- `VadWrapper.force_end_utterance` (`vad.py` lines 167-173). -/
def forceEndUtterance (s : VadState) : VadState :=
  if s.was_speaking && !s.utterance_processed then
    { s with end_of_utterance := true, was_speaking := false, utterance_processed := true }
  else s

/-- `VadWrapper.mark_utterance_processed` (`vad.py` lines 159-165). -/
def markUtteranceProcessed (s : VadState) : VadState :=
  { s with utterance_processed := true }

/-- The complete fixed-size sub-frames of a chunk, 512 samples each
(= 1024 bytes): the loop `for i in range(0, len(pcm), 1024)` of
`vad.py` line 122 restricted to the complete sub-frames it keeps
(line 126); a trailing block of fewer than 512 samples yields no
sub-frame. -/
def subFrames (pcm : Audio) : List Audio :=
  (List.range (pcm.length / 512)).map fun i => (pcm.drop (512 * i)).take 512

/-- The scanning loop of `VadWrapper.is_speech` (`vad.py` lines
122-148): run the acoustic model over the complete sub-frames in
order; an inference error (`none`) skips the sub-frame (`continue`,
line 148); the first sub-frame whose probability exceeds the threshold
stops the scan (`break`, line 144).  Returns the sub-frames actually
handed to the model, and the probability of the first speech sub-frame
if one was found. -/
def scanFrames (o : Oracles) (thr : ℤ) : List Audio → List Audio × Option ℤ
  | [] => ([], none)
  | c :: cs =>
    match o.vadModel c with
    | some p =>
      if thr < p then ([c], some p)
      else
        let r := scanFrames o thr cs
        (c :: r.1, r.2)
    | none =>
      let r := scanFrames o thr cs
      (c :: r.1, r.2)

/-- Result of one `is_speech` call: new detector state, the returned
speech decision, and (instrumentation) the sub-frames evaluated by the
acoustic model during the call. -/
structure VadOut where
  st : VadState
  speech : Bool
  evaluated : List Audio
deriving DecidableEq

/-- `VadWrapper.is_speech` (`vad.py` lines 101-157).  An empty chunk
returns the previous result without touching any state (lines 112-114).
Otherwise exactly one `_update_speech_state` call happens: with the
first speech sub-frame's probability if speech was found, else with
`(False, 0.0)` (lines 140-152), and `_last_speech_result` is updated
(line 155). -/
def vadIsSpeech (cfg : VadCfg) (o : Oracles) (nowMs : ℤ) (s : VadState) (pcm : Audio) :
    VadOut :=
  if pcm.length = 0 then ⟨s, s.last_speech_result, []⟩
  else
    let r := scanFrames o cfg.threshold (subFrames pcm)
    match r.2 with
    | some p =>
      let s := updateSpeechState cfg nowMs true p s
      ⟨{ s with last_speech_result := true }, true, r.1⟩
    | none =>
      let s := updateSpeechState cfg nowMs false 0 s
      ⟨{ s with last_speech_result := false }, false, r.1⟩

/-- `VadWrapper.should_trigger_early_processing` (`vad.py` lines
208-229) applied to a probability history: at least 8 samples, and the
average of the 5 most recent ones below both the predictive threshold
and the absolute floor `0.3`; the division by 5 is cross-multiplied
away (see the module docstring). -/
def shouldTriggerEarly (cfg : VadCfg) (ps : List ℤ) : Bool :=
  if ps.length < 8 then false
  else
    let t5 := (lastK 5 ps).sum
    decide (t5 < 5 * cfg.predictive_threshold) && decide (t5 < 5 * 300000)

/-! ## Incremental transcriber (`asr.py`, class `StreamingASR`) -/

/-- Configuration fields of `StreamingASR` that the claims touch
(`asr.py` lines 31-37): `min_audio_duration = 0.1 s` (100 ms),
`silence_threshold = 0.001` (1000 millionths),
`partial_update_interval = 0.2 s` (200 ms),
`enable_partial_results = True`. -/
structure AsrCfg where
  min_audio_duration_ms : ℤ
  silence_threshold_u : ℤ
  partial_update_interval_ms : ℤ
  enable_partial_results : Bool

/-- The transcriber configuration built by `StreamingASR.__init__`. -/
def asrCfgD : AsrCfg :=
  { min_audio_duration_ms := 100
    silence_threshold_u := 1000
    partial_update_interval_ms := 200
    enable_partial_results := true }

/-- The check `len(a) / 16000 < cfg.min_audio_duration`, exactly
cross-multiplied (durations in ms). -/
def durationBelow (cfg : AsrCfg) (n : Nat) : Bool :=
  decide ((1000 * n : ℤ) < 16000 * cfg.min_audio_duration_ms)

/-- The check `np.sqrt(np.mean((buf / 32768) ** 2)) < thr` with `thr`
in millionths, exactly cross-multiplied (see the module docstring). -/
def rmsBelow (cfg : AsrCfg) (buf : Audio) : Bool :=
  decide (10 ^ 12 * (buf.map fun s => s * s).sum <
    (buf.length : ℤ) * cfg.silence_threshold_u ^ 2 * 2 ^ 30)

/-- The float array handed to the transcription model:
`audio / 32768.0` followed by `_normalize_audio` (`asr.py` lines
105-112), which rescales the peak to 0.8 when the buffer is not
all-zero.  Composing the two maps: for peak sample magnitude `m > 0`
the normalised value of sample `s` is `(s/32768) / (m/32768) * 0.8 =
s / m * 0.8`. -/
def modelAudio (buf : Audio) : List ℚ :=
  let m : ℤ := (buf.map fun s => |s|).foldr max 0
  if 0 < m then buf.map fun s => (s : ℚ) / (m : ℚ) * (4 / 5)
  else buf.map fun s => (s : ℚ) / 32768

/-- Mutable state of `StreamingASR` (`asr.py` lines 39-48, 62-72).
`audio_buffer` holds samples (2 bytes each in the source);
`last_partial_hash` models `_get_audio_hash` of the audio used for the
last partial — the fingerprint of the first 1000 samples (`asr.py`
lines 74-81), modelled by those samples themselves (the `/ 32768`
float conversion is injective), with the initial `""` as `[]`. -/
structure ASRState where
  audio_buffer : Audio
  last_partial_transcript : String
  last_partial_hash : Audio
  last_partial_time : ℤ
  last_final_transcript : String
  transcription_count : Nat
  finalized : Bool
  ultra_fast_mode : Bool
deriving DecidableEq

/-- `StreamingASR.reset` / `reset_session` (`asr.py` lines 62-72,
313-316): clears the buffer and all per-session transcript state.
`ultra_fast_mode` is a mode switch, not session state, and survives. -/
def asrReset (s : ASRState) : ASRState :=
  { audio_buffer := []
    last_partial_transcript := ""
    last_partial_hash := []
    last_partial_time := 0
    last_final_transcript := ""
    transcription_count := 0
    finalized := false
    ultra_fast_mode := s.ultra_fast_mode }

/-- `_get_audio_hash` (`asr.py` lines 74-81): fingerprint of the first
1000 samples (md5 modelled as collision-free). -/
def audioHash (buf : Audio) : Audio :=
  buf.take 1000

/-- `StreamingASR._validate_audio_chunk` (`asr.py` lines 83-103) as a
boolean: nonempty, at least the minimum duration, and not below the
silence floor (the clipping branch only logs). -/
def validateAudio (cfg : AsrCfg) (buf : Audio) : Bool :=
  if buf.length = 0 then false
  else if durationBelow cfg buf.length then false
  else if rmsBelow cfg buf then false
  else true

/-- `StreamingASR.feed_audio` (`asr.py` lines 244-307): append to the
buffer (unless empty input or already finalized); then maybe produce a
rate-limited, content-gated partial transcript.  Returns the new state
and the partial text if one was emitted. -/
def asrFeedAudio (cfg : AsrCfg) (o : Oracles) (now : ℤ) (s : ASRState) (pcm : Audio) :
    ASRState × Option String :=
  if pcm.isEmpty || s.finalized then (s, none)
  else
    let s : ASRState := { s with audio_buffer := s.audio_buffer ++ pcm }
    -- `_should_generate_partial` (lines 114-130)
    if !cfg.enable_partial_results then (s, none)
    else if decide (now - s.last_partial_time < cfg.partial_update_interval_ms) then (s, none)
    else if durationBelow cfg s.audio_buffer.length then (s, none)
    else if !validateAudio cfg s.audio_buffer then (s, none)
    else
      let h := audioHash s.audio_buffer
      if h = s.last_partial_hash then (s, none)
      else
        let t := o.transcribe s.ultra_fast_mode (modelAudio s.audio_buffer) true
        if t ≠ "" && t ≠ s.last_partial_transcript then
          ({ s with last_partial_transcript := t
                    last_partial_hash := h
                    last_partial_time := now
                    transcription_count := s.transcription_count + 1 }, some t)
        else (s, none)

/-- Result of one `finalize` call, instrumented with how many thorough
(`is_partial=False`) and fast (`is_partial=True`) transcription-model
invocations the call made. -/
structure FinalizeOut where
  text : String
  st : ASRState
  thoroughCalls : Nat
  fastCalls : Nat
deriving DecidableEq

/-- `StreamingASR.finalize` (`asr.py` lines 318-387).  Order of the
cases exactly as in the source: already finalized → cached
`last_final_transcript`, no model call; empty buffer → `""`;
whole-buffer duration below the minimum → last partial; whole-buffer
RMS below the silence floor → last partial; otherwise one thorough
pass, retried with a fast pass when empty, with the last partial
transcript as final fallback.  Note that the two degenerate fallbacks
return `last_partial_transcript` without writing
`last_final_transcript` (`asr.py` lines 340-352). -/
def asrFinalize (cfg : AsrCfg) (o : Oracles) (s : ASRState) : FinalizeOut :=
  if s.finalized then ⟨s.last_final_transcript, s, 0, 0⟩
  else if s.audio_buffer.isEmpty then ⟨"", { s with finalized := true }, 0, 0⟩
  else if durationBelow cfg s.audio_buffer.length then
    ⟨s.last_partial_transcript, { s with finalized := true }, 0, 0⟩
  else if rmsBelow cfg s.audio_buffer then
    ⟨s.last_partial_transcript, { s with finalized := true }, 0, 0⟩
  else
    let a := modelAudio s.audio_buffer
    let t := o.transcribe s.ultra_fast_mode a false
    if t ≠ "" then
      ⟨t, { s with last_final_transcript := t, finalized := true }, 1, 0⟩
    else
      let tp := o.transcribe s.ultra_fast_mode a true
      if tp ≠ "" then
        ⟨tp, { s with last_final_transcript := tp, finalized := true }, 1, 1⟩
      else
        ⟨s.last_partial_transcript,
         { s with last_final_transcript := s.last_partial_transcript, finalized := true },
         1, 1⟩

/-! ## Response cache (`tts.py`, class `CachedTTSWrapper`) -/

/-- The response cache: normalized-key → audio entries in insertion
order, oldest first (a Python 3.7+ `dict` preserves insertion order and
`next(iter(d))` is the oldest key, `tts.py` line 429). -/
abbrev Cache := List (String × TtsBytes)

/-- Python `s.strip()` on the character list: drop leading and trailing
whitespace. -/
def pyStrip (cs : List Char) : List Char :=
  ((cs.dropWhile Char.isWhitespace).reverse.dropWhile Char.isWhitespace).reverse

/-- Python truthiness of `text` and `text.strip()` combined:
`not text or not text.strip()` holds iff every character is
whitespace. -/
def isBlank (text : String) : Bool :=
  text.data.all Char.isWhitespace

/-- The cache key of a response text: `text[:100].strip().lower()`
(`tts.py` line 408); the md5 of it is modelled by the key itself.
Implemented on the character list so that it evaluates by kernel
reduction. -/
def cacheKey (text : String) : String :=
  ⟨(pyStrip (text.data.take 100)).map Char.toLower⟩

/-- `CachedTTSWrapper.synthesize_with_cache` (`tts.py` lines 402-434)
acting on the cache: returns the audio, the new cache, and the
hit/miss counter increments.  On a miss with the cache at capacity the
oldest-inserted entry (the head) is evicted before inserting. -/
def synthesizeWithCache (maxSize : Nat) (o : Oracles) (cache : Cache) (text : String) :
    TtsBytes × Cache × Nat × Nat :=
  if isBlank text then ([], cache, 0, 0)
  else
    let key := cacheKey text
    match cache.lookup key with
    | some audio => (audio, cache, 1, 0)
    | none =>
      let audio := o.synth text
      if cache.length < maxSize then
        (audio, cache ++ [(key, audio)], 0, 1)
      else
        (audio, cache.tail ++ [(key, audio)], 0, 1)

/-! ## Pipeline orchestrator (`pipeline_manager.py`, class `PipelineManager`) -/

/-- `PipelineState` (`pipeline_manager.py` lines 18-24). -/
inductive PState where
  | idle | listening | processing | responding | error
deriving DecidableEq

/-- Orchestrator configuration (`PipelineManager.__init__` defaults,
`pipeline_manager.py` lines 29-36 and 107): times in milliseconds,
`max_buffer_bytes = int(max_buffer_duration * 16000 * 2)`. -/
structure PmCfg where
  max_buffer_bytes : ℤ
  processing_timeout_ms : ℤ
  min_time_between_responses_ms : ℤ
  enable_partial_transcripts : Bool
  enable_parallel_processing : Bool
  max_cache_size : Nat

/-- The default configuration of `PipelineManager.__init__`:
`max_buffer_duration = 1.5 s` (48000 bytes), `processing_timeout = 15 s`,
`min_time_between_responses = 0.3 s`. -/
def pmCfgD : PmCfg :=
  { max_buffer_bytes := 48000
    processing_timeout_ms := 15000
    min_time_between_responses_ms := 300
    enable_partial_transcripts := true
    enable_parallel_processing := true
    max_cache_size := 100 }

/-- The statistics dictionary `_stats` (`pipeline_manager.py` lines
110-118), the fields the modelled paths touch. -/
structure PmStats where
  total_chunks : Nat
  processing_count : Nat
  parallel_processing_count : Nat
  predictive_triggers : Nat
deriving DecidableEq

/-- Per-session orchestrator state (`pipeline_manager.py` lines 83-125).
`buffer` is the raw-audio accumulation buffer (samples; bytes = 2×).
The content fingerprints (`_last_processed_hash`, sha256[:16] of the
buffer, and `_last_processed_utterance_hash`, md5[:16] of the processed
snapshot) are modelled by the fingerprinted sample lists themselves. -/
structure PMState where
  pstate : PState
  buffer : Audio
  pending_text : Option String
  chunk_count : Nat
  last_processing_time : ℤ
  last_processed_hash : Option Audio
  processing_attempts : Nat
  is_processing : Bool
  last_processed_transcript : String
  last_processed_time : ℤ
  last_processed_utterance_hash : Option Audio
  last_processed_utterance_time : ℤ
  stats : PmStats
  asr : ASRState
  vad : VadState
  cache : Cache
  cache_hits : Nat
  cache_misses : Nat

/-- `PipelineManager._is_duplicate_utterance` (`pipeline_manager.py`
lines 132-147): nonempty buffer whose content fingerprint equals the
one recorded for the most recently processed utterance, within the
2-second (2000 ms) recency window. -/
def isDuplicateUtterance (now : ℤ) (s : PMState) (buf : Audio) : Bool :=
  if buf.isEmpty then false
  else
    match s.last_processed_utterance_hash with
    | some h => decide (h = buf) && decide (now - s.last_processed_utterance_time < 2000)
    | none => false

/-- `PipelineManager._manage_buffer_size` (`pipeline_manager.py` lines
290-304), byte thresholds on 2-byte samples: when appending would
exceed `max_buffer_bytes`, keep the last `int(5.0 * 32000) = 160000`
bytes (80000 samples), or clear outright if not even that many are
buffered. -/
def manageBufferSize (cfg : PmCfg) (s : PMState) (newLen : Nat) : PMState :=
  if decide (cfg.max_buffer_bytes < ((s.buffer.length + newLen) * 2 : ℤ)) then
    if 160000 < s.buffer.length * 2 then
      { s with buffer := s.buffer.drop (s.buffer.length - 80000) }
    else
      { s with buffer := [] }
  else s

/-- `PipelineManager._reset_utterance_state` (`pipeline_manager.py`
lines 828-845): clear the buffer and pending text, clear the in-flight
flag, reset the transcriber session and the detector.  The recorded
duplicate fingerprint (`_last_processed_utterance_hash`/`_time`) is
deliberately not touched. -/
def resetUtteranceState (s : PMState) : PMState :=
  { s with buffer := []
           pending_text := none
           chunk_count := 0
           processing_attempts := 0
           is_processing := false
           asr := asrReset s.asr
           vad := vadReset s.vad }

/-- The logical pipeline result `{audio, text, transcript}`; the
`processing_time` entry of the source dict is wall-clock bookkeeping
and (following the claims) excluded from the logical result. -/
structure PRes where
  audio : TtsBytes
  text : String
  transcript : String
deriving DecidableEq

/-- `PipelineManager._generate_tts` → `synthesize_with_cache` applied to
the orchestrator state (`pipeline_manager.py` lines 779-793). -/
def generateTts (cfg : PmCfg) (o : Oracles) (s : PMState) (text : String) :
    TtsBytes × PMState :=
  let r := synthesizeWithCache cfg.max_cache_size o s.cache text
  (r.1, { s with cache := r.2.1
                 cache_hits := s.cache_hits + r.2.2.1
                 cache_misses := s.cache_misses + r.2.2.2 })

/-- `PipelineManager._process_complete_utterance` (`pipeline_manager.py`
lines 567-621), the sequential mode, under the single deadline: finalize
→ (empty/whitespace transcript ⇒ no output) → respond → (empty response
⇒ no output) → synthesize → result.  A deadline expiry at any stage
(`asyncio.TimeoutError`) is caught at line 613 and yields no output —
it is not re-raised to the caller.  The `finally` block always runs
`_reset_utterance_state`.  Websocket status events are transport-layer
and not modelled. -/
def processCompleteUtterance (cfg : PmCfg) (o : Oracles) (s : PMState) :
    PMState × Option PRes :=
  if o.dlFinal then (resetUtteranceState s, none)
  else
    let f := asrFinalize asrCfgD o s.asr
    let s : PMState := { s with asr := f.st }
    if isBlank f.text then (resetUtteranceState s, none)
    else if o.dlRag then (resetUtteranceState s, none)
    else
      let r := o.rag f.text
      if r = "" then (resetUtteranceState s, none)
      else if o.dlTts then (resetUtteranceState s, none)
      else
        let ta := generateTts cfg o s r
        let s : PMState := ta.2
        let s : PMState :=
          { s with stats := { s.stats with processing_count := s.stats.processing_count + 1 } }
        (resetUtteranceState s, some ⟨ta.1, r, f.text⟩)

/-- `PipelineManager._process_complete_utterance_parallel`
(`pipeline_manager.py` lines 623-699): falls back to the sequential
mode when parallel processing is disabled; otherwise the same stage
chain, but rejecting an empty synthesis output (lines 669-671) and
counting the run in `parallel_processing_count` (line 631).  The
overlapped scheduling affects only wall-clock time; the stage data
dependencies are as in the source (each stage awaits its input before
starting). -/
def processCompleteUtteranceParallel (cfg : PmCfg) (o : Oracles) (s : PMState) :
    PMState × Option PRes :=
  if !cfg.enable_parallel_processing then processCompleteUtterance cfg o s
  else
    let s : PMState :=
      { s with stats := { s.stats with
                          parallel_processing_count := s.stats.parallel_processing_count + 1 } }
    if o.dlFinal then (resetUtteranceState s, none)
    else
      let f := asrFinalize asrCfgD o s.asr
      let s : PMState := { s with asr := f.st }
      if isBlank f.text then (resetUtteranceState s, none)
      else if o.dlRag then (resetUtteranceState s, none)
      else
        let r := o.rag f.text
        if r = "" then (resetUtteranceState s, none)
        else if o.dlTts then (resetUtteranceState s, none)
        else
          let ta := generateTts cfg o s r
          let s : PMState := ta.2
          if ta.1.isEmpty then (resetUtteranceState s, none)
          else
            let s : PMState :=
              { s with stats := { s.stats with
                                  processing_count := s.stats.processing_count + 1 } }
            (resetUtteranceState s, some ⟨ta.1, r, f.text⟩)

/-- `PipelineManager._background_process_utterance` (`pipeline_manager.py`
lines 476-517): snapshot the buffer, record its fingerprint and the
current time as the most recently processed utterance, run the parallel
or sequential pipeline, and in the guaranteed `finally` block clear the
in-flight flag.  Returns also the snapshot (instrumentation). -/
def backgroundProcessUtterance (cfg : PmCfg) (o : Oracles) (now : ℤ) (s : PMState) :
    PMState × Option PRes × Audio :=
  let snap := s.buffer
  let s : PMState :=
    { s with last_processed_utterance_hash := some snap
             last_processed_utterance_time := now }
  let pr :=
    if cfg.enable_parallel_processing then processCompleteUtteranceParallel cfg o s
    else processCompleteUtterance cfg o s
  ({ pr.1 with is_processing := false }, pr.2, snap)

/-- `PipelineManager._handle_ultra_fast_partial` (`pipeline_manager.py`
lines 519-541): feed the chunk to the transcriber; an emitted partial
that differs from the pending text replaces it (the websocket event is
transport-layer). -/
def handleUltraFastPartialTx (o : Oracles) (now : ℤ) (s : PMState) (pcm : Audio) : PMState :=
  let fa := asrFeedAudio asrCfgD o now s.asr pcm
  let s : PMState := { s with asr := fa.1 }
  match fa.2 with
  | some t => if some t ≠ s.pending_text then { s with pending_text := some t } else s
  | none => s

/-- Result of one ultra-fast chunk step, instrumented for the
concurrency claims: `pipelineRuns` counts invocations of the
process-and-respond pipeline during the step (0 or 1), `flagAtRun` is
the value of the in-flight flag at the moment the pipeline body
started, `triggered` records the trigger decision, `bufAtCheck` the
buffer contents when the duplicate check ran, and `snapshot` the
buffer snapshot handed to the pipeline. -/
structure ChunkOut where
  st : PMState
  result : Option PRes
  pipelineRuns : Nat
  flagAtRun : Bool
  triggered : Bool
  bufAtCheck : Audio
  snapshot : Audio

/-- The per-chunk bookkeeping of `_process_audio_chunk_ultra_fast`
before the trigger decision (`pipeline_manager.py` lines 412-429):
trim-and-append the chunk, enter `LISTENING` from `IDLE`, and run the
detector.  Returns the updated state and the detector's speech
decision.  (The source reads the buffered duration before the detector
runs, line 416; the detector does not modify the buffer, so the
duration may equivalently be read afterwards, as the caller does.) -/
def chunkPrep (cfg : PmCfg) (o : Oracles) (now : ℤ) (s : PMState) (pcm : Audio) :
    PMState × Bool :=
  let s := manageBufferSize cfg s pcm.length
  let s : PMState := { s with buffer := s.buffer ++ pcm }
  let s : PMState := if s.pstate = .idle then { s with pstate := .listening } else s
  let vo := vadIsSpeech vadCfgD o now s.vad pcm
  ({ s with vad := vo.st }, vo.speech)

/-- `PipelineManager._process_audio_chunk_ultra_fast`
(`pipeline_manager.py` lines 399-474): count the chunk; bail out while
an utterance is in flight (lines 408-410); trim-and-append, enter
`LISTENING` and run the detector (`chunkPrep`); compute the predictive
trigger (buffered duration at least 1.5 s = 24000 samples,
early-trigger signal, and in-flight flag false) and the traditional
trigger (detector edge set and in-flight flag false); on trigger,
reject duplicate utterances, count a predictive trigger, set the
in-flight flag, and run `_background_process_utterance`; otherwise
maybe emit a partial transcript. -/
def processChunkUltraFast (cfg : PmCfg) (o : Oracles) (now : ℤ) (s : PMState) (pcm : Audio) :
    ChunkOut :=
  let s : PMState :=
    { s with chunk_count := s.chunk_count + 1
             stats := { s.stats with total_chunks := s.stats.total_chunks + 1 } }
  if s.is_processing then ⟨s, none, 0, false, false, [], []⟩
  else
    let pv := chunkPrep cfg o now s pcm
    let s := pv.1
    let isSp := pv.2
    let predictive :=
      decide (24000 ≤ s.buffer.length) &&
      shouldTriggerEarly vadCfgD s.vad.recent_probabilities && !s.is_processing
    let traditional := s.vad.end_of_utterance && !s.is_processing
    if predictive || traditional then
      let bufC := s.buffer
      if isDuplicateUtterance now s bufC then
        ⟨s, none, 0, false, true, bufC, []⟩
      else
        let s : PMState :=
          if predictive then
            { s with stats := { s.stats with
                                predictive_triggers := s.stats.predictive_triggers + 1 } }
          else s
        let s : PMState := { s with is_processing := true }
        let flagAtRun := s.is_processing
        let bp := backgroundProcessUtterance cfg o now s
        ⟨bp.1, bp.2.1, 1, flagAtRun, true, bufC, bp.2.2⟩
    else
      let s : PMState :=
        if isSp && cfg.enable_partial_transcripts then
          handleUltraFastPartialTx o now s pcm
        else s
      ⟨s, none, 0, false, false, s.buffer, []⟩

/-! ## Theorems for the claims -/

/-- The scan loop only ever evaluates a prefix of the sub-frames it is
given. -/
theorem scanFrames_evaluated_prefix (o : Oracles) (thr : ℤ) :
    ∀ cs : List Audio, ∃ rest, (scanFrames o thr cs).1 ++ rest = cs := by
  intro cs
  induction cs with
  | nil => exact ⟨[], rfl⟩
  | cons c cs ih =>
    simp only [scanFrames]
    cases h : o.vadModel c with
    | some p =>
      by_cases hp : thr < p
      · exact ⟨cs, by simp [hp]⟩
      · obtain ⟨rest, hrest⟩ := ih
        exact ⟨rest, by simp [hp, hrest]⟩
    | none =>
      obtain ⟨rest, hrest⟩ := ih
      exact ⟨rest, by simp [hrest]⟩

/-- Every sub-frame produced by `subFrames` is complete (512 samples). -/
theorem subFrames_length_eq (pcm : Audio) : ∀ c ∈ subFrames pcm, c.length = 512 := by
  intro c hc
  simp only [subFrames, List.mem_map, List.mem_range] at hc
  obtain ⟨i, hi, rfl⟩ := hc
  simp only [List.length_take, List.length_drop]
  omega

/-- `subFrames` yields exactly `⌊len / 512⌋` sub-frames: the trailing
`len % 512` samples are in no sub-frame. -/
theorem subFrames_count (pcm : Audio) : (subFrames pcm).length = pcm.length / 512 := by
  simp [subFrames]

/-- C10: calling the detector's `is_speech` with an empty byte chunk
does not report silence and does not update the speech state; it
returns the speech decision of the previous non-empty chunk (the
initial value being `false` after `reset`), leaving the silence timer
and edge flag unchanged (`vad.py` lines 112-114, 53-63). -/
theorem c10_empty_chunk_is_noop (cfg : VadCfg) (o : Oracles) (nowMs : ℤ) (s : VadState) :
    vadIsSpeech cfg o nowMs s [] = ⟨s, s.last_speech_result, []⟩ ∧
    (vadReset s).last_speech_result = false :=
  ⟨rfl, rfl⟩

/-- A detector state refuting C4's "no other operation sets the edge":
speaking, edge not yet consumed, and no silence accumulated at all
(`silence_start = none`). -/
def vadCx : VadState :=
  { end_of_utterance := false
    last_speech_time := 0
    silence_start := none
    was_speaking := true
    last_speech_result := true
    utterance_processed := false
    recent_probabilities := [] }

/-- C4, counterexample: `force_end_utterance` (`vad.py` lines 167-173)
sets the "utterance ended" edge although no trailing silence has been
accumulated (`silence_start = none`), so reaching the trailing-silence
threshold is not the only way the edge becomes true. -/
theorem c4_claim_counterexample :
    vadCx.end_of_utterance = false ∧ vadCx.silence_start = none ∧
    (forceEndUtterance vadCx).end_of_utterance = true := by
  refine ⟨rfl, rfl, rfl⟩

/-- How a silence observation (`_update_speech_state(False, 0.0)`)
acts on the utterance-ended edge. -/
theorem updateSpeechState_silence_eou (cfg : VadCfg) (nowMs : ℤ) (s : VadState) :
    (updateSpeechState cfg nowMs false 0 s).end_of_utterance =
      (if (s.was_speaking && !s.utterance_processed) = true then
        (if cfg.max_tail_ms ≤ nowMs - s.silence_start.getD nowMs then true
         else s.end_of_utterance)
      else s.end_of_utterance) := by
  rw [updateSpeechState]
  by_cases h1 : (s.was_speaking && !s.utterance_processed) = true
  · by_cases h2 : cfg.max_tail_ms ≤ nowMs - s.silence_start.getD nowMs
    · simp [h1, h2]
    · simp [h1, h2]
  · simp [h1]

/-- How a silence observation acts on the speaking flag. -/
theorem updateSpeechState_silence_speaking (cfg : VadCfg) (nowMs : ℤ) (s : VadState) :
    (updateSpeechState cfg nowMs false 0 s).was_speaking =
      (if (s.was_speaking && !s.utterance_processed) = true then
        (if cfg.max_tail_ms ≤ nowMs - s.silence_start.getD nowMs then false
         else s.was_speaking)
      else s.was_speaking) := by
  rw [updateSpeechState]
  by_cases h1 : (s.was_speaking && !s.utterance_processed) = true
  · by_cases h2 : cfg.max_tail_ms ≤ nowMs - s.silence_start.getD nowMs
    · simp [h1, h2]
    · simp [h1, h2]
  · simp [h1]

/-- A speech observation never sets the utterance-ended edge: it clears
it at speech start and leaves it alone otherwise. -/
theorem updateSpeechState_speech_eou (cfg : VadCfg) (nowMs : ℤ) (p : ℤ) (s : VadState) :
    (updateSpeechState cfg nowMs true p s).end_of_utterance =
      (if s.was_speaking then s.end_of_utterance else false) := by
  rw [updateSpeechState]
  by_cases h1 : s.was_speaking
  · simp [h1]
  · simp [h1]

/-- C4, amended: during chunk processing the edge becomes true only
when, while speaking and with the edge not yet consumed, accumulated
trailing silence reaches the configured threshold — exactly the
threshold sets it, any strictly smaller accumulated silence leaves it
unchanged; but additionally the explicit `force_end_utterance`
operation sets the edge whenever speaking with the edge not yet
consumed. -/
theorem c4_silence_edge_rules (cfg : VadCfg) (o : Oracles) (nowMs : ℤ) (s : VadState)
    (pcm : Audio) (t0 : ℤ) :
    (s.was_speaking = true → s.utterance_processed = false → s.silence_start = some t0 →
      cfg.max_tail_ms ≤ nowMs - t0 →
      (updateSpeechState cfg nowMs false 0 s).end_of_utterance = true ∧
      (updateSpeechState cfg nowMs false 0 s).was_speaking = false) ∧
    (s.silence_start = some t0 → nowMs - t0 < cfg.max_tail_ms →
      (updateSpeechState cfg nowMs false 0 s).end_of_utterance = s.end_of_utterance) ∧
    ((vadIsSpeech cfg o nowMs s pcm).st.end_of_utterance = true →
      s.end_of_utterance = true ∨
      (s.was_speaking = true ∧ s.utterance_processed = false ∧
        cfg.max_tail_ms ≤ nowMs - s.silence_start.getD nowMs)) ∧
    (s.was_speaking = true → s.utterance_processed = false →
      (forceEndUtterance s).end_of_utterance = true) := by
  refine ⟨?_, ?_, ?_, ?_⟩
  · intro hw hu hss hle
    rw [updateSpeechState_silence_eou, updateSpeechState_silence_speaking]
    simp [hw, hu, hss, hle]
  · intro hss hlt
    rw [updateSpeechState_silence_eou]
    simp only [hss, Option.getD_some]
    split_ifs with h1 h2
    · omega
    · rfl
    · rfl
  · intro h
    by_cases hemp : pcm.length = 0
    · left
      simpa [vadIsSpeech, hemp] using h
    · simp only [vadIsSpeech, if_neg hemp] at h
      rcases hscan : (scanFrames o cfg.threshold (subFrames pcm)).2 with _ | p
      · rw [hscan] at h
        simp only [updateSpeechState_silence_eou] at h
        by_cases hw : s.was_speaking
        · by_cases hu : s.utterance_processed
          · left; simpa [hw, hu] using h
          · by_cases hle : cfg.max_tail_ms ≤ nowMs - s.silence_start.getD nowMs
            · exact Or.inr ⟨hw, Bool.eq_false_iff.mpr hu, hle⟩
            · left; simpa [hw, hu, hle] using h
        · left; simpa [hw] using h
      · rw [hscan] at h
        simp only [updateSpeechState_speech_eou] at h
        by_cases hw : s.was_speaking
        · left; simpa [hw] using h
        · left; simpa [hw] using h
  · intro hw hu
    simp [forceEndUtterance, hw, hu]

/-- C4, witness for `c4_silence_edge_rules`: with the configured
150 ms threshold, silence started at 850 and a call at exactly
1000 (accumulated silence exactly 150 ms) sets the edge and clears
speaking. -/
def vadW : VadState :=
  { end_of_utterance := false
    last_speech_time := 800
    silence_start := some 850
    was_speaking := true
    last_speech_result := false
    utterance_processed := false
    recent_probabilities := [] }

theorem c4_silence_edge_rules_witness :
    vadW.was_speaking = true ∧ vadW.utterance_processed = false ∧
    vadW.silence_start = some 850 ∧ vadCfgD.max_tail_ms ≤ 1000 - 850 ∧
    (updateSpeechState vadCfgD 1000 false 0 vadW).end_of_utterance = true ∧
    (updateSpeechState vadCfgD 1000 false 0 vadW).was_speaking = false := by
  refine ⟨rfl, rfl, rfl, by decide, ?_⟩
  exact (c4_silence_edge_rules vadCfgD
    { vadModel := fun _ => none, transcribe := fun _ _ _ => "",
      rag := fun _ => "", synth := fun _ => [] } 1000 vadW [] 850).1
    rfl rfl rfl (by decide)

/-- An acoustic-model oracle that classifies every sub-frame as certain
speech (probability 1). -/
def oSpeechAll : Oracles :=
  { vadModel := fun _ => some 1000000
    transcribe := fun _ _ _ => ""
    rag := fun _ => ""
    synth := fun _ => [] }

/-- A 256-sample (512-byte) chunk: half of the detector's native
512-sample (1024-byte) sub-frame. -/
def halfFrame : Audio := List.replicate 256 7

set_option maxRecDepth 60000 in
/-- C9, counterexample: feeding two successive half-sub-frame chunks —
together exactly one native sub-frame — the acoustic model is never
invoked (`evaluated = []` both times) and both calls report silence,
even under an oracle that would classify any evaluated sub-frame as
speech; the same bytes fed as a single chunk are classified as speech.
The trailing partial sub-frame is therefore discarded, not buffered and
completed by the next call. -/
theorem c9_claim_counterexample :
    (vadIsSpeech vadCfgD oSpeechAll 0 vadInit halfFrame).evaluated = [] ∧
    (vadIsSpeech vadCfgD oSpeechAll 0 vadInit halfFrame).speech = false ∧
    (vadIsSpeech vadCfgD oSpeechAll 0
      (vadIsSpeech vadCfgD oSpeechAll 0 vadInit halfFrame).st halfFrame).evaluated = [] ∧
    (vadIsSpeech vadCfgD oSpeechAll 0
      (vadIsSpeech vadCfgD oSpeechAll 0 vadInit halfFrame).st halfFrame).speech = false ∧
    (vadIsSpeech vadCfgD oSpeechAll 0 vadInit (halfFrame ++ halfFrame)).speech = true := by
  decide

/-- C9, amended: when the detector processes an input chunk whose
length is not a multiple of its native sub-frame size, the trailing
partial sub-frame is discarded, not buffered: each `is_speech` call
hands the acoustic model only (a prefix of) the complete 512-sample
sub-frames of its own input — exactly `⌊len / 512⌋` of them exist, each
of full size — and no state carries the remainder to a later call, so
the bytes of a trailing partial sub-frame are never evaluated. -/
theorem c9_partial_subframe_discarded (cfg : VadCfg) (o : Oracles) (nowMs : ℤ)
    (s : VadState) (pcm : Audio) :
    (∃ rest, (vadIsSpeech cfg o nowMs s pcm).evaluated ++ rest = subFrames pcm) ∧
    (∀ c ∈ subFrames pcm, c.length = 512) ∧
    (subFrames pcm).length = pcm.length / 512 := by
  refine ⟨?_, subFrames_length_eq pcm, subFrames_count pcm⟩
  by_cases hemp : pcm.length = 0
  · exact ⟨subFrames pcm, by simp [vadIsSpeech, hemp]⟩
  · obtain ⟨rest, hrest⟩ := scanFrames_evaluated_prefix o cfg.threshold (subFrames pcm)
    refine ⟨rest, ?_⟩
    simp only [vadIsSpeech, if_neg hemp]
    rcases hscan : (scanFrames o cfg.threshold (subFrames pcm)).2 with _ | p
    · simpa [hscan] using hrest
    · simpa [hscan] using hrest

/-- C6: `finalize()` handles degenerate input in exactly the claimed
order (`asr.py` lines 327-387): if the entire accumulated buffer is
shorter than the minimum viable duration or its RMS energy is below the
silence floor, it returns the last partial transcript without invoking
the transcription model; otherwise, if the thorough pass returns empty
text, it retries with the cheap/fast pass; if that is also empty, it
returns the last partial transcript (which may itself be empty).  The
well-formedness hypothesis `audio_buffer = [] → last partial = ""`
holds for every state reachable through the API, since a partial is
only ever recorded with a nonempty buffer and `reset` clears both. -/
theorem c6_finalize_degenerate_order (o : Oracles) (s : ASRState)
    (hwf : s.audio_buffer = [] → s.last_partial_transcript = "")
    (hnf : s.finalized = false) :
    ((durationBelow asrCfgD s.audio_buffer.length || rmsBelow asrCfgD s.audio_buffer) = true →
       (asrFinalize asrCfgD o s).text = s.last_partial_transcript ∧
       (asrFinalize asrCfgD o s).thoroughCalls = 0 ∧
       (asrFinalize asrCfgD o s).fastCalls = 0) ∧
    (durationBelow asrCfgD s.audio_buffer.length = false →
     rmsBelow asrCfgD s.audio_buffer = false →
       ((o.transcribe s.ultra_fast_mode (modelAudio s.audio_buffer) false ≠ "" →
          (asrFinalize asrCfgD o s).text =
            o.transcribe s.ultra_fast_mode (modelAudio s.audio_buffer) false ∧
          (asrFinalize asrCfgD o s).thoroughCalls = 1 ∧
          (asrFinalize asrCfgD o s).fastCalls = 0) ∧
        (o.transcribe s.ultra_fast_mode (modelAudio s.audio_buffer) false = "" →
         o.transcribe s.ultra_fast_mode (modelAudio s.audio_buffer) true ≠ "" →
          (asrFinalize asrCfgD o s).text =
            o.transcribe s.ultra_fast_mode (modelAudio s.audio_buffer) true) ∧
        (o.transcribe s.ultra_fast_mode (modelAudio s.audio_buffer) false = "" →
         o.transcribe s.ultra_fast_mode (modelAudio s.audio_buffer) true = "" →
          (asrFinalize asrCfgD o s).text = s.last_partial_transcript))) := by
  constructor
  · intro hdeg
    rcases hbuf : s.audio_buffer with _ | ⟨a, l⟩
    · simp [asrFinalize, hnf, hbuf, hwf hbuf]
    · rw [Bool.or_eq_true] at hdeg
      rcases hdeg with hd | hr
      · rw [hbuf, List.length_cons] at hd
        simp [asrFinalize, hnf, hbuf, hd]
      · rw [hbuf] at hr
        simp only [asrFinalize, hnf, hbuf, hr]
        by_cases hd : durationBelow asrCfgD (l.length + 1) = true
        · simp [hd]
        · simp [Bool.eq_false_iff.mpr hd]
  · intro hd hr
    have hne : s.audio_buffer.isEmpty = false := by
      rcases hbuf : s.audio_buffer with _ | ⟨a, l⟩
      · rw [hbuf] at hd
        exact absurd hd (by simp [durationBelow, asrCfgD])
      · rfl
    refine ⟨?_, ?_, ?_⟩
    · intro ht
      simp [asrFinalize, hnf, hne, hd, hr, ht]
    · intro ht htp
      simp [asrFinalize, hnf, hne, hd, hr, ht, htp]
    · intro ht htp
      simp [asrFinalize, hnf, hne, hd, hr, ht, htp]

/-- A transcriber state for the C6 witness: 0.1 s of viable audio
(1600 samples of magnitude 1000), not yet finalized. -/
def asrViable : ASRState :=
  { audio_buffer := List.replicate 1600 1000
    last_partial_transcript := "lp"
    last_partial_hash := []
    last_partial_time := 0
    last_final_transcript := ""
    transcription_count := 0
    finalized := false
    ultra_fast_mode := false }

/-- A transcription oracle whose thorough pass says "TH" and whose fast
pass says nothing. -/
def oThorough : Oracles :=
  { vadModel := fun _ => none
    transcribe := fun _ _ isPart => if isPart then "" else "TH"
    rag := fun t => t
    synth := fun _ => [0] }

/-- The viable 1600-sample buffer is not below the minimum duration. -/
theorem asrViable_duration : durationBelow asrCfgD asrViable.audio_buffer.length = false := by
  show durationBelow asrCfgD (List.replicate 1600 (1000:Int)).length = false
  rw [List.length_replicate]
  decide

/-- The viable 1600-sample buffer is not below the silence floor. -/
theorem asrViable_rms : rmsBelow asrCfgD asrViable.audio_buffer = false := by
  show rmsBelow asrCfgD (List.replicate 1600 (1000:Int)) = false
  rw [rmsBelow, List.map_replicate, List.sum_replicate, List.length_replicate]
  norm_num [asrCfgD, nsmul_eq_mul]

theorem c6_finalize_degenerate_order_witness :
    durationBelow asrCfgD asrViable.audio_buffer.length = false ∧
    rmsBelow asrCfgD asrViable.audio_buffer = false ∧
    (asrFinalize asrCfgD oThorough asrViable).text = "TH" ∧
    (asrFinalize asrCfgD oThorough asrViable).thoroughCalls = 1 ∧
    (asrFinalize asrCfgD oThorough asrViable).fastCalls = 0 := by
  have h := (c6_finalize_degenerate_order oThorough asrViable
    (by intro h; exact absurd h (by decide)) rfl).2 asrViable_duration asrViable_rms
  have h1 := h.1 (by decide)
  exact ⟨asrViable_duration, asrViable_rms,
    by simpa [oThorough] using h1.1, h1.2.1, h1.2.2⟩

/-- C2, amended theorem: once `finalize()` has actually reached the
transcription stage (viable duration and energy), a second `finalize()`
call without an intervening reset returns exactly the same text, makes
no transcription-model invocation, and leaves the state unchanged —
the second call returns the cached `last_final_transcript`.  (On the
degenerate fallback paths the first call returns the last partial
transcript without writing `last_final_transcript`, so there the claim
fails; see `c2_claim_counterexample`.) -/
theorem c2_finalize_idempotent_after_transcription (o : Oracles) (s : ASRState)
    (hnf : s.finalized = false)
    (hd : durationBelow asrCfgD s.audio_buffer.length = false)
    (hr : rmsBelow asrCfgD s.audio_buffer = false) :
    (asrFinalize asrCfgD o (asrFinalize asrCfgD o s).st).text =
      (asrFinalize asrCfgD o s).text ∧
    (asrFinalize asrCfgD o (asrFinalize asrCfgD o s).st).thoroughCalls = 0 ∧
    (asrFinalize asrCfgD o (asrFinalize asrCfgD o s).st).fastCalls = 0 ∧
    (asrFinalize asrCfgD o (asrFinalize asrCfgD o s).st).st = (asrFinalize asrCfgD o s).st ∧
    (asrFinalize asrCfgD o s).thoroughCalls = 1 := by
  have hne : s.audio_buffer.isEmpty = false := by
    rcases hbuf : s.audio_buffer with _ | ⟨a, l⟩
    · rw [hbuf] at hd
      exact absurd hd (by simp [durationBelow, asrCfgD])
    · rfl
  by_cases ht : o.transcribe s.ultra_fast_mode (modelAudio s.audio_buffer) false = ""
  · by_cases htp : o.transcribe s.ultra_fast_mode (modelAudio s.audio_buffer) true = ""
    · simp [asrFinalize, hnf, hne, hd, hr, ht, htp]
    · simp [asrFinalize, hnf, hne, hd, hr, ht, htp]
  · simp [asrFinalize, hnf, hne, hd, hr, ht]

theorem c2_finalize_idempotent_witness :
    asrViable.finalized = false ∧
    durationBelow asrCfgD asrViable.audio_buffer.length = false ∧
    rmsBelow asrCfgD asrViable.audio_buffer = false ∧
    (asrFinalize asrCfgD oThorough (asrFinalize asrCfgD oThorough asrViable).st).text =
      (asrFinalize asrCfgD oThorough asrViable).text ∧
    (asrFinalize asrCfgD oThorough
      (asrFinalize asrCfgD oThorough asrViable).st).thoroughCalls = 0 :=
  have h := c2_finalize_idempotent_after_transcription oThorough asrViable rfl
    asrViable_duration asrViable_rms
  ⟨rfl, asrViable_duration, asrViable_rms, h.1, h.2.1⟩

/-- The accumulated buffer of the C2 counterexample: 0.1 s of barely
voiced audio (1600 samples of magnitude 33, RMS just above the floor)
followed by 23 zero samples, which drags the whole-buffer RMS just
below the silence floor.  Such a state is reachable through the API:
the partial pass runs while the buffer is still energetic (recording
`last_partial_transcript = "hello"`), then silence is appended. -/
def cxBuf : Audio := List.replicate 1600 33 ++ List.replicate 23 0

/-- The transcriber state of the C2 counterexample. -/
def asrCx : ASRState :=
  { audio_buffer := cxBuf
    last_partial_transcript := "hello"
    last_partial_hash := []
    last_partial_time := 0
    last_final_transcript := ""
    transcription_count := 1
    finalized := false
    ultra_fast_mode := false }

/-- A transcription oracle that always produces text — showing the C2
counterexample does not hinge on model failure. -/
def oCx : Oracles :=
  { vadModel := fun _ => none
    transcribe := fun _ _ _ => "model text"
    rag := fun t => t
    synth := fun _ => [0] }

/-- The counterexample buffer is long enough (1623 samples ≥ 0.1 s). -/
theorem cxBuf_duration : durationBelow asrCfgD cxBuf.length = false := by
  rw [cxBuf, List.length_append, List.length_replicate, List.length_replicate]
  decide

/-- The counterexample buffer is below the silence floor:
`10^12 * (1600 * 33^2) < 1623 * 1000^2 * 2^30`. -/
theorem cxBuf_rms : rmsBelow asrCfgD cxBuf = true := by
  rw [cxBuf, rmsBelow, List.map_append, List.sum_append, List.length_append,
    List.map_replicate, List.sum_replicate, List.length_replicate,
    List.map_replicate, List.sum_replicate, List.length_replicate]
  norm_num [asrCfgD, nsmul_eq_mul]

/-- The first `finalize()` on the counterexample state takes the
silent-buffer fallback: it returns the last partial transcript without
touching `last_final_transcript`. -/
theorem c2_cx_first_call :
    asrFinalize asrCfgD oCx asrCx = ⟨"hello", { asrCx with finalized := true }, 0, 0⟩ := by
  have hne : cxBuf.isEmpty = false := rfl
  simp [asrFinalize, asrCx, hne, cxBuf_duration, cxBuf_rms]

/-- C2, counterexample: on a transcriber state whose buffer is viable
in duration but below the silence floor (reachable by speaking briefly
and then staying silent), the first `finalize()` returns the last
partial transcript `"hello"`, but the second `finalize()` returns the
cached `last_final_transcript`, which was never written and is `""` —
so the two calls do not return the same text. -/
theorem c2_claim_counterexample :
    (asrFinalize asrCfgD oCx asrCx).text = "hello" ∧
    (asrFinalize asrCfgD oCx (asrFinalize asrCfgD oCx asrCx).st).text = "" ∧
    (asrFinalize asrCfgD oCx asrCx).text ≠
      (asrFinalize asrCfgD oCx (asrFinalize asrCfgD oCx asrCx).st).text := by
  rw [c2_cx_first_call]
  refine ⟨rfl, ?_, ?_⟩
  · simp [asrFinalize, asrCx]
  · simp [asrFinalize, asrCx]

/-- Folding a list of response texts through the cached synthesizer, in
order (`synthesize_with_cache` called once per text). -/
def insertAll (maxSize : Nat) (o : Oracles) (c : Cache) (l : List String) : Cache :=
  l.foldl (fun c t => (synthesizeWithCache maxSize o c t).2.1) c

/-- A key that is not among a cache's keys is not found by `lookup`. -/
theorem lookup_none_of_key_not_mem (key : String) :
    ∀ c : Cache, key ∉ c.map Prod.fst → c.lookup key = none := by
  intro c
  induction c with
  | nil => intro _; rfl
  | cons e es ih =>
    intro h
    simp only [List.map_cons, List.mem_cons, not_or] at h
    rcases e with ⟨k, v⟩
    have hbeq : (key == k) = false := by simpa using h.1
    simp only [List.lookup, hbeq]
    exact ih h.2

/-- Inserting distinct-keyed, non-blank texts into a cache evicts
exactly from the oldest end: the final cache is the suffix of the
insertion sequence that fits the capacity. -/
theorem insertAll_distinct_keys (maxSize : Nat) (o : Oracles) (hm : 1 ≤ maxSize) :
    ∀ (l : List String) (c : Cache),
      c.length ≤ maxSize →
      (c.map Prod.fst ++ l.map cacheKey).Nodup →
      (∀ t ∈ l, isBlank t = false) →
      insertAll maxSize o c l =
        (c ++ l.map fun t => (cacheKey t, o.synth t)).drop (c.length + l.length - maxSize) := by
  intro l
  induction l with
  | nil =>
    intro c hb _ _
    simp only [insertAll, List.foldl_nil, List.map_nil, List.append_nil, List.length_nil,
      Nat.add_zero]
    rw [Nat.sub_eq_zero_of_le hb, List.drop_zero]
  | cons t ts ih =>
    intro c hb hnd htr
    have hkey : cacheKey t ∉ c.map Prod.fst := by
      rw [List.nodup_append] at hnd
      intro hmem
      exact hnd.2.2 hmem (by simp)
    have hlook : c.lookup (cacheKey t) = none := lookup_none_of_key_not_mem _ c hkey
    have htrim : isBlank t = false := htr t (by simp)
    have hstep : (synthesizeWithCache maxSize o c t).2.1 =
        if c.length < maxSize then c ++ [(cacheKey t, o.synth t)]
        else c.tail ++ [(cacheKey t, o.synth t)] := by
      have hnb : ¬ (isBlank t = true) := by simp [htrim]
      rw [synthesizeWithCache, if_neg hnb]
      simp only [hlook]
      split_ifs <;> rfl
    have hfold : insertAll maxSize o c (t :: ts) =
        insertAll maxSize o ((synthesizeWithCache maxSize o c t).2.1) ts := rfl
    by_cases hlt : c.length < maxSize
    · rw [hfold, hstep, if_pos hlt]
      rw [ih (c ++ [(cacheKey t, o.synth t)])
        (by simp; omega)
        (by
          have : (c ++ [(cacheKey t, o.synth t)]).map Prod.fst ++ ts.map cacheKey =
              c.map Prod.fst ++ (t :: ts).map cacheKey := by
            simp
          rw [this]; exact hnd)
        (fun u hu => htr u (by simp [hu]))]
      congr 1
      · simp only [List.length_append, List.length_cons, List.length_nil, List.length_map,
          List.map_cons]
        omega
      · simp
    · have hceq : c.length = maxSize := le_antisymm hb (not_lt.mp hlt)
      have hcne : c ≠ [] := by
        intro h
        rw [h] at hceq
        simp at hceq
        omega
      rw [hfold, hstep, if_neg hlt]
      rw [ih (c.tail ++ [(cacheKey t, o.synth t)])
        (by
          rcases c with _ | ⟨e, es⟩
          · exact absurd rfl hcne
          · simp at hceq ⊢; omega)
        (by
          refine List.Nodup.sublist ?_ hnd
          have : (c.tail ++ [(cacheKey t, o.synth t)]).map Prod.fst ++ ts.map cacheKey =
              (c.map Prod.fst).tail ++ (t :: ts).map cacheKey := by
            simp [List.map_tail]
          rw [this]
          exact List.Sublist.append (List.tail_sublist _) (List.Sublist.refl _))
        (fun u hu => htr u (by simp [hu]))]
      rcases c with _ | ⟨e, es⟩
      · exact absurd rfl hcne
      · have hms : maxSize = es.length + 1 := by simpa using hceq.symm
        subst hms
        have h1 : (List.tail (e :: es) ++ [(cacheKey t, o.synth t)]).length + ts.length -
            (es.length + 1) = ts.length := by
          simp only [List.tail_cons, List.length_append, List.length_cons, List.length_nil]
          omega
        have h2 : (e :: es).length + (t :: ts).length - (es.length + 1) = ts.length + 1 := by
          simp only [List.length_cons]
          omega
        rw [h1, h2]
        simp only [List.tail_cons, List.cons_append, List.map_cons, List.drop_succ_cons,
          List.append_assoc, List.singleton_append, List.nil_append]

/-- One cached-synthesis call preserves the capacity bound. -/
theorem synthesizeWithCache_length_le (maxSize : Nat) (o : Oracles) (cache : Cache)
    (text : String) (hm : 1 ≤ maxSize) (hb : cache.length ≤ maxSize) :
    (synthesizeWithCache maxSize o cache text).2.1.length ≤ maxSize := by
  by_cases h1 : isBlank text = true
  · simpa [synthesizeWithCache, h1] using hb
  · rcases hlk : cache.lookup (cacheKey text) with _ | a
    · by_cases h2 : cache.length < maxSize
      · simp only [synthesizeWithCache, Bool.eq_false_iff.mpr h1, Bool.false_eq_true,
          if_false, hlk, if_pos h2]
        simp only [List.length_append, List.length_cons, List.length_nil]
        omega
      · simp only [synthesizeWithCache, Bool.eq_false_iff.mpr h1, Bool.false_eq_true,
          if_false, hlk, if_neg h2]
        rcases cache with _ | ⟨e, es⟩
        · simp at h2
          omega
        · simp only [List.tail_cons, List.length_append, List.length_cons, List.length_nil]
          simp only [List.length_cons] at hb
          omega
    · simpa [synthesizeWithCache, Bool.eq_false_iff.mpr h1, Bool.false_eq_true, hlk] using hb

/-- C8: the response cache never exceeds its configured capacity; an
insertion at capacity evicts exactly the oldest-inserted entry
(`tts.py` lines 424-432); and inserting a sequence of distinct,
non-blank response texts into an empty cache leaves exactly the newest
`maxSize` entries in insertion order — the oldest-inserted entries are
evicted first, in insertion order. -/
theorem c8_cache_bound_and_fifo (maxSize : Nat) (o : Oracles) (cache : Cache) (text : String)
    (hm : 1 ≤ maxSize) (hb : cache.length ≤ maxSize) :
    (synthesizeWithCache maxSize o cache text).2.1.length ≤ maxSize ∧
    (cache.length = maxSize → cache.lookup (cacheKey text) = none → isBlank text = false →
      (synthesizeWithCache maxSize o cache text).2.1 =
        cache.tail ++ [(cacheKey text, o.synth text)]) ∧
    (∀ l : List String, (l.map cacheKey).Nodup → (∀ t ∈ l, isBlank t = false) →
      insertAll maxSize o [] l =
        (l.map fun t => (cacheKey t, o.synth t)).drop (l.length - maxSize)) := by
  refine ⟨synthesizeWithCache_length_le maxSize o cache text hm hb, ?_, ?_⟩
  · intro hfull hlk htrim
    simp only [synthesizeWithCache, htrim, Bool.false_eq_true, if_false, hlk]
    have hnlt : ¬ cache.length < maxSize := by omega
    simp only [hnlt, if_false]
  · intro l hnd htr
    have := insertAll_distinct_keys maxSize o hm l [] (by simp)
      (by simpa using hnd) htr
    simpa using this

/-- An oracle whose synthesizer maps each text to a one-byte audio
tagged by its length. -/
def oCache : Oracles :=
  { vadModel := fun _ => none
    transcribe := fun _ _ _ => ""
    rag := fun t => t
    synth := fun t => [t.length] }

theorem c8_cache_bound_and_fifo_witness :
    (1 ≤ 2 ∧ ([("aa", [9])] : Cache).length ≤ 2) ∧
    (synthesizeWithCache 2 oCache [("aa", [9])] "bb").2.1.length ≤ 2 ∧
    insertAll 2 oCache [] ["aa", "bb", "cc"] =
      ([("aa", [2]), ("bb", [2]), ("cc", [2])].drop 1 : Cache) := by
  have h := c8_cache_bound_and_fifo 2 oCache [("aa", [9])] "bb" (by decide) (by decide)
  refine ⟨⟨by decide, by decide⟩, h.1, ?_⟩
  have h3 := h.2.2 ["aa", "bb", "cc"] (by decide) (by decide)
  simpa [oCache, cacheKey] using h3

/-- `finalize` never changes the transcriber's mode switch. -/
theorem asrFinalize_ultra_fast (cfg : AsrCfg) (o : Oracles) (s : ASRState) :
    (asrFinalize cfg o s).st.ultra_fast_mode = s.ultra_fast_mode := by
  rw [asrFinalize]
  split_ifs <;> try rfl
  dsimp only
  split_ifs <;> rfl

/-- C7: if the process-and-respond pipeline exceeds its single deadline
at any stage, the utterance is aborted with no output (the call returns
`none`, so no audio_response is produced), and the per-utterance
session state — buffer, pending partial, transcriber session, detector
— is still fully reset, with the in-flight flag cleared.  The
`asyncio.TimeoutError` is caught inside `_process_complete_utterance`
(`pipeline_manager.py` lines 613-615), so in this model the function
returns normally rather than propagating the timeout to the caller. -/
theorem c7_deadline_aborts_and_resets (cfg : PmCfg) (o : Oracles) (s : PMState)
    (h : o.dlFinal = true ∨ o.dlRag = true ∨ o.dlTts = true) :
    (processCompleteUtterance cfg o s).2 = none ∧
    (processCompleteUtterance cfg o s).1.buffer = [] ∧
    (processCompleteUtterance cfg o s).1.pending_text = none ∧
    (processCompleteUtterance cfg o s).1.is_processing = false ∧
    (processCompleteUtterance cfg o s).1.asr = asrReset s.asr ∧
    (processCompleteUtterance cfg o s).1.vad = vadReset s.vad := by
  by_cases hdf : o.dlFinal = true
  · simp [processCompleteUtterance, hdf, resetUtteranceState]
  · have hdf' : o.dlFinal = false := Bool.eq_false_iff.mpr hdf
    simp only [processCompleteUtterance, hdf', Bool.false_eq_true, if_false]
    by_cases hbl : isBlank (asrFinalize asrCfgD o s.asr).text = true
    · simp [hbl, resetUtteranceState, asrReset, asrFinalize_ultra_fast]
    · have hbl' : isBlank (asrFinalize asrCfgD o s.asr).text = false := Bool.eq_false_iff.mpr hbl
      simp only [hbl', Bool.false_eq_true, if_false]
      by_cases hdr : o.dlRag = true
      · simp [hdr, resetUtteranceState, asrReset, asrFinalize_ultra_fast]
      · have hdr' : o.dlRag = false := Bool.eq_false_iff.mpr hdr
        have hdt : o.dlTts = true := by
          rcases h with h | h | h
          · exact absurd h hdf
          · exact absurd h hdr
          · exact h
        simp only [hdr', Bool.false_eq_true, if_false]
        by_cases hre : o.rag (asrFinalize asrCfgD o s.asr).text = ""
        · simp [hre, resetUtteranceState, asrReset, asrFinalize_ultra_fast]
        · simp [hre, hdt, resetUtteranceState, asrReset, asrFinalize_ultra_fast]

/-- The initial orchestrator state built by `PipelineManager.__init__`
(`pipeline_manager.py` lines 83-125), with ultra-fast ASR mode enabled
as the constructor does (line 62). -/
def pmInit : PMState :=
  { pstate := .idle
    buffer := []
    pending_text := none
    chunk_count := 0
    last_processing_time := 0
    last_processed_hash := none
    processing_attempts := 0
    is_processing := false
    last_processed_transcript := ""
    last_processed_time := 0
    last_processed_utterance_hash := none
    last_processed_utterance_time := 0
    stats := { total_chunks := 0, processing_count := 0,
               parallel_processing_count := 0, predictive_triggers := 0 }
    asr := { asrReset (ASRState.mk [] "" [] 0 "" 0 false false) with ultra_fast_mode := true }
    vad := vadInit
    cache := []
    cache_hits := 0
    cache_misses := 0 }

theorem c7_deadline_aborts_and_resets_witness :
    ((Oracles.mk (fun _ => none) (fun _ _ _ => "x") (fun t => t) (fun _ => [1])
        false true false).dlRag = true) ∧
    (processCompleteUtterance pmCfgD
      (Oracles.mk (fun _ => none) (fun _ _ _ => "x") (fun t => t) (fun _ => [1])
        false true false) { pmInit with asr := asrViable }).2 = none ∧
    (processCompleteUtterance pmCfgD
      (Oracles.mk (fun _ => none) (fun _ _ _ => "x") (fun t => t) (fun _ => [1])
        false true false) { pmInit with asr := asrViable }).1.is_processing = false :=
  have h := c7_deadline_aborts_and_resets pmCfgD
    (Oracles.mk (fun _ => none) (fun _ _ _ => "x") (fun t => t) (fun _ => [1])
      false true false) { pmInit with asr := asrViable } (Or.inr (Or.inl rfl))
  ⟨rfl, h.1, h.2.2.2.1⟩

/-- C3, counterexample oracle: the synthesis collaborator returns empty
audio (its documented failure fallback, `tts.py` returns `b""`). -/
def oEmptySynth : Oracles :=
  { vadModel := fun _ => none
    transcribe := fun _ _ isPart => if isPart then "" else "TH"
    rag := fun t => t
    synth := fun _ => [] }

/-- The orchestrator state of the C3 scenario: a fresh session whose
transcriber has buffered 0.1 s of viable audio. -/
def pmW : PMState := { pmInit with asr := asrViable }

/-- What `finalize` does on the viable buffer under a thorough-pass
oracle answering `"TH"`. -/
theorem asrFinalize_viable_th (o : Oracles)
    (hth : o.transcribe false (modelAudio asrViable.audio_buffer) false = "TH") :
    asrFinalize asrCfgD o asrViable =
      ⟨"TH", { asrViable with last_final_transcript := "TH", finalized := true }, 1, 0⟩ := by
  have hne : asrViable.audio_buffer.isEmpty = false := rfl
  have hfin : asrViable.finalized = false := rfl
  have hum : asrViable.ultra_fast_mode = false := rfl
  rw [asrFinalize]
  rw [hfin, if_neg (by simp), if_neg (by simp [hne]),
    if_neg (by simp [asrViable_duration]), if_neg (by simp [asrViable_rms])]
  rw [hum]
  dsimp only
  rw [hth]
  simp [hum]

/-- The sequential mode on the C3 scenario returns a result whose audio
is the empty synthesis output. -/
theorem c3_cx_seq :
    (processCompleteUtterance pmCfgD oEmptySynth pmW).2 = some ⟨[], "TH", "TH"⟩ := by
  have hfin : asrFinalize asrCfgD oEmptySynth pmW.asr =
      ⟨"TH", { asrViable with last_final_transcript := "TH", finalized := true }, 1, 0⟩ :=
    asrFinalize_viable_th oEmptySynth rfl
  rw [processCompleteUtterance]
  rw [if_neg (by simp [oEmptySynth]), hfin]
  rw [if_neg (by decide), if_neg (by simp [oEmptySynth])]
  rw [if_neg (by simp [oEmptySynth]), if_neg (by simp [oEmptySynth])]
  rfl

/-- The parallel mode on the very same scenario returns no output: it
rejects the empty synthesis audio (`pipeline_manager.py` lines
669-671). -/
theorem c3_cx_par :
    (processCompleteUtteranceParallel pmCfgD oEmptySynth pmW).2 = none := by
  have hfin : asrFinalize asrCfgD oEmptySynth pmW.asr =
      ⟨"TH", { asrViable with last_final_transcript := "TH", finalized := true }, 1, 0⟩ :=
    asrFinalize_viable_th oEmptySynth rfl
  rw [processCompleteUtteranceParallel]
  rw [if_neg (by simp [pmCfgD])]
  rw [if_neg (by simp [oEmptySynth])]
  rw [hfin]
  rw [if_neg (by decide), if_neg (by simp [oEmptySynth])]
  rw [if_neg (by simp [oEmptySynth]), if_neg (by simp [oEmptySynth])]
  rw [if_pos (by rfl)]

/-- C3, counterexample: with byte-identical state and collaborators,
when the synthesis stage yields empty audio the sequential mode returns
a result dict (with empty audio) while the parallel-overlapped mode
returns no output — the two execution modes do not produce the same
logical result in every no-output case. -/
theorem c3_claim_counterexample :
    (processCompleteUtterance pmCfgD oEmptySynth pmW).2 = some ⟨[], "TH", "TH"⟩ ∧
    (processCompleteUtteranceParallel pmCfgD oEmptySynth pmW).2 = none ∧
    (processCompleteUtteranceParallel pmCfgD oEmptySynth pmW).2 ≠
      (processCompleteUtterance pmCfgD oEmptySynth pmW).2 := by
  refine ⟨c3_cx_seq, c3_cx_par, ?_⟩
  rw [c3_cx_seq, c3_cx_par]
  exact fun hne => Option.noConfusion hne

/-- C3, amended: the parallel-overlapped mode produces the same logical
result `{audio, text, transcript}` as the sequential mode on every
collaborator behavior in which the sequential result's synthesized
audio is non-empty (in particular whenever synthesis never returns
empty audio); the two modes also agree on every abort path — empty or
whitespace-only transcript, empty response, and deadline expiry at any
stage.  They differ only when synthesis yields empty audio, where the
sequential mode returns the result with empty audio and the parallel
mode returns no output (see `c3_claim_counterexample`). -/
theorem c3_parallel_matches_sequential (cfg : PmCfg) (o : Oracles) (s : PMState)
    (h : ∀ r, (processCompleteUtterance cfg o s).2 = some r → r.audio ≠ []) :
    (processCompleteUtteranceParallel cfg o s).2 = (processCompleteUtterance cfg o s).2 := by
  by_cases hp : cfg.enable_parallel_processing = true
  · rw [processCompleteUtteranceParallel, if_neg (by simp [hp])]
    by_cases hdf : o.dlFinal = true
    · simp [processCompleteUtterance, hdf]
    · have hdf' : o.dlFinal = false := Bool.eq_false_iff.mpr hdf
      simp only [processCompleteUtterance, hdf', Bool.false_eq_true, if_false]
      by_cases hbl : isBlank (asrFinalize asrCfgD o s.asr).text = true
      · simp [hbl]
      · have hbl' : isBlank (asrFinalize asrCfgD o s.asr).text = false :=
          Bool.eq_false_iff.mpr hbl
        simp only [hbl', Bool.false_eq_true, if_false]
        by_cases hdr : o.dlRag = true
        · simp [hdr]
        · have hdr' : o.dlRag = false := Bool.eq_false_iff.mpr hdr
          simp only [hdr', Bool.false_eq_true, if_false]
          by_cases hre : o.rag (asrFinalize asrCfgD o s.asr).text = ""
          · simp [hre]
          · simp only [hre, if_false]
            by_cases hdt : o.dlTts = true
            · simp [hdt]
            · have hdt' : o.dlTts = false := Bool.eq_false_iff.mpr hdt
              simp only [hdt', Bool.false_eq_true, if_false]
              have haud : (generateTts cfg o
                  { s with asr := (asrFinalize asrCfgD o s.asr).st }
                  (o.rag (asrFinalize asrCfgD o s.asr).text)).1 ≠ [] := by
                intro hemp
                refine h ⟨[], o.rag (asrFinalize asrCfgD o s.asr).text,
                    (asrFinalize asrCfgD o s.asr).text⟩ ?_ rfl
                simp only [processCompleteUtterance, hdf', Bool.false_eq_true, if_false,
                  hbl', hre, hdr', hdt']
                rw [← hemp]
              split_ifs with hif
              · exact absurd (List.isEmpty_iff.mp
                  (hif : (generateTts cfg o
                    { s with asr := (asrFinalize asrCfgD o s.asr).st }
                    (o.rag (asrFinalize asrCfgD o s.asr).text)).1.isEmpty = true)) haud
              · rfl
  · have hp' : cfg.enable_parallel_processing = false := Bool.eq_false_iff.mpr hp
    rw [processCompleteUtteranceParallel, if_pos (by simp [hp'])]

theorem c3_parallel_matches_sequential_witness :
    (∀ r, (processCompleteUtterance pmCfgD oThorough pmW).2 = some r → r.audio ≠ []) ∧
    (processCompleteUtteranceParallel pmCfgD oThorough pmW).2 =
      (processCompleteUtterance pmCfgD oThorough pmW).2 := by
  have hfin : asrFinalize asrCfgD oThorough pmW.asr =
      ⟨"TH", { asrViable with last_final_transcript := "TH", finalized := true }, 1, 0⟩ :=
    asrFinalize_viable_th oThorough rfl
  have hseq : (processCompleteUtterance pmCfgD oThorough pmW).2 = some ⟨[0], "TH", "TH"⟩ := by
    rw [processCompleteUtterance]
    rw [if_neg (by simp [oThorough]), hfin]
    rw [if_neg (by decide), if_neg (by simp [oThorough])]
    rw [if_neg (by simp [oThorough]), if_neg (by simp [oThorough])]
    rfl
  have hyp : ∀ r, (processCompleteUtterance pmCfgD oThorough pmW).2 = some r →
      r.audio ≠ [] := by
    intro r hr
    rw [hseq] at hr
    cases hr
    exact fun hcon => List.noConfusion hcon
  exact ⟨hyp, c3_parallel_matches_sequential pmCfgD oThorough pmW hyp⟩

/-- Buffer trimming touches only the buffer. -/
theorem manageBufferSize_is_processing (cfg : PmCfg) (s : PMState) (n : Nat) :
    (manageBufferSize cfg s n).is_processing = s.is_processing := by
  rw [manageBufferSize]
  split_ifs <;> rfl

/-- Buffer trimming preserves the recorded duplicate fingerprint. -/
theorem manageBufferSize_dup_hash (cfg : PmCfg) (s : PMState) (n : Nat) :
    (manageBufferSize cfg s n).last_processed_utterance_hash =
      s.last_processed_utterance_hash := by
  rw [manageBufferSize]
  split_ifs <;> rfl

/-- Buffer trimming preserves the recorded duplicate timestamp. -/
theorem manageBufferSize_dup_time (cfg : PmCfg) (s : PMState) (n : Nat) :
    (manageBufferSize cfg s n).last_processed_utterance_time =
      s.last_processed_utterance_time := by
  rw [manageBufferSize]
  split_ifs <;> rfl

/-- Partial-transcript handling never touches the in-flight flag. -/
theorem handleUltraFastPartialTx_is_processing (o : Oracles) (now : ℤ) (s : PMState)
    (pcm : Audio) :
    (handleUltraFastPartialTx o now s pcm).is_processing = s.is_processing := by
  rw [handleUltraFastPartialTx]
  rcases (asrFeedAudio asrCfgD o now s.asr pcm).2 with _ | t
  · rfl
  · dsimp only
    split_ifs <;> rfl

/-- The sequential pipeline never touches the recorded duplicate
fingerprint or its timestamp. -/
theorem processCompleteUtterance_keeps_dup (cfg : PmCfg) (o : Oracles) (s : PMState) :
    (processCompleteUtterance cfg o s).1.last_processed_utterance_hash =
      s.last_processed_utterance_hash ∧
    (processCompleteUtterance cfg o s).1.last_processed_utterance_time =
      s.last_processed_utterance_time := by
  rw [processCompleteUtterance]
  constructor <;>
  · dsimp only
    split_ifs <;> simp [resetUtteranceState, generateTts]

/-- The parallel pipeline never touches the recorded duplicate
fingerprint or its timestamp. -/
theorem processCompleteUtteranceParallel_keeps_dup (cfg : PmCfg) (o : Oracles) (s : PMState) :
    (processCompleteUtteranceParallel cfg o s).1.last_processed_utterance_hash =
      s.last_processed_utterance_hash ∧
    (processCompleteUtteranceParallel cfg o s).1.last_processed_utterance_time =
      s.last_processed_utterance_time := by
  rw [processCompleteUtteranceParallel]
  by_cases hp : cfg.enable_parallel_processing = true
  · rw [if_neg (by simp [hp])]
    constructor <;>
    · dsimp only
      split_ifs <;> simp [resetUtteranceState, generateTts]
  · rw [if_pos (by simp [Bool.eq_false_iff.mpr hp])]
    exact processCompleteUtterance_keeps_dup cfg o s

/-- The background processor's `finally` block always leaves the
in-flight flag cleared. -/
theorem backgroundProcessUtterance_clears_flag (cfg : PmCfg) (o : Oracles) (now : ℤ)
    (s : PMState) :
    (backgroundProcessUtterance cfg o now s).1.is_processing = false := rfl

/-- The background processor records the fingerprint of exactly the
snapshot it hands to the pipeline, together with the current time, and
the snapshot is the buffer at call time. -/
theorem backgroundProcessUtterance_records (cfg : PmCfg) (o : Oracles) (now : ℤ)
    (s : PMState) :
    (backgroundProcessUtterance cfg o now s).1.last_processed_utterance_hash =
      some s.buffer ∧
    (backgroundProcessUtterance cfg o now s).1.last_processed_utterance_time = now ∧
    (backgroundProcessUtterance cfg o now s).2.2 = s.buffer := by
  refine ⟨?_, ?_, rfl⟩ <;>
  · rw [backgroundProcessUtterance]
    dsimp only
    split_ifs with hp
    · simp [processCompleteUtteranceParallel_keeps_dup]
    · simp [processCompleteUtterance_keeps_dup]

/-- The pre-trigger bookkeeping touches neither the in-flight flag nor
the recorded duplicate fingerprint. -/
theorem chunkPrep_is_processing (cfg : PmCfg) (o : Oracles) (now : ℤ) (s : PMState)
    (pcm : Audio) :
    (chunkPrep cfg o now s pcm).1.is_processing = s.is_processing := by
  rw [chunkPrep]
  dsimp only
  split_ifs <;> simp [manageBufferSize_is_processing]

/-- The pre-trigger bookkeeping preserves the recorded duplicate
fingerprint. -/
theorem chunkPrep_dup_hash (cfg : PmCfg) (o : Oracles) (now : ℤ) (s : PMState)
    (pcm : Audio) :
    (chunkPrep cfg o now s pcm).1.last_processed_utterance_hash =
      s.last_processed_utterance_hash := by
  rw [chunkPrep]
  dsimp only
  split_ifs <;> simp [manageBufferSize_dup_hash]

/-- The pre-trigger bookkeeping preserves the recorded duplicate
timestamp. -/
theorem chunkPrep_dup_time (cfg : PmCfg) (o : Oracles) (now : ℤ) (s : PMState)
    (pcm : Audio) :
    (chunkPrep cfg o now s pcm).1.last_processed_utterance_time =
      s.last_processed_utterance_time := by
  rw [chunkPrep]
  dsimp only
  split_ifs <;> simp [manageBufferSize_dup_time]

/-- C1: per session, at most one process-and-respond pipeline is in
flight at a time.  In the ultra-fast chunk path
(`pipeline_manager.py` lines 399-474) a chunk step starts at most one
pipeline run; while the in-flight flag is set, no trigger decision is
taken and no pipeline is started (lines 408-410, 436, 442); the flag
is set to true before the downstream call starts (line 458); and on
every completion path — success, failure, or timeout — the guaranteed
cleanup blocks clear the flag (lines 514-517, 619-621, 697-699), so a
completed chunk step always ends with the flag false whenever it
started false. -/
theorem c1_single_flight (cfg : PmCfg) (o : Oracles) (now : ℤ) (s : PMState) (pcm : Audio) :
    (processChunkUltraFast cfg o now s pcm).pipelineRuns ≤ 1 ∧
    (s.is_processing = true →
      (processChunkUltraFast cfg o now s pcm).pipelineRuns = 0 ∧
      (processChunkUltraFast cfg o now s pcm).result = none) ∧
    ((processChunkUltraFast cfg o now s pcm).pipelineRuns = 1 →
      s.is_processing = false ∧
      (processChunkUltraFast cfg o now s pcm).flagAtRun = true ∧
      (processChunkUltraFast cfg o now s pcm).st.is_processing = false) ∧
    (s.is_processing = false →
      (processChunkUltraFast cfg o now s pcm).st.is_processing = false) := by
  by_cases hip : s.is_processing = true
  · rw [processChunkUltraFast, if_pos (by simpa using hip)]
    exact ⟨by simp, fun _ => ⟨rfl, rfl⟩,
      fun h1 => absurd h1 (by simp),
      fun hf => absurd hip (by simp [hf])⟩
  · have hip' : s.is_processing = false := Bool.eq_false_iff.mpr hip
    rw [processChunkUltraFast, if_neg (by simp [hip'])]
    dsimp only
    split_ifs with htrig hdup hpart <;>
      simp_all [backgroundProcessUtterance_clears_flag, chunkPrep_is_processing,
        handleUltraFastPartialTx_is_processing]

/-- The duplicate check fires whenever the buffer is nonempty,
byte-identical to the recorded fingerprint, and inside the recency
window. -/
theorem isDuplicateUtterance_true (now : ℤ) (s : PMState) (buf : Audio)
    (h1 : s.last_processed_utterance_hash = some buf)
    (h2 : now - s.last_processed_utterance_time < 2000)
    (h3 : buf ≠ []) :
    isDuplicateUtterance now s buf = true := by
  rw [isDuplicateUtterance, h1]
  have hbe : buf.isEmpty = false := by
    rcases buf with _ | ⟨b, bs⟩
    · exact absurd rfl h3
    · rfl
  simp [hbe, h2]

/-- C5: in the ultra-fast chunk path, whenever a chunk step runs the
pipeline, the content fingerprint of the processed snapshot and the
trigger time are recorded; and any later trigger whose buffered audio
is byte-identical to the recorded fingerprint, within the 2-second
recency window, is rejected — no pipeline run and no output — so two
triggers on byte-identical buffered audio within the window produce
exactly one processed response (`pipeline_manager.py` lines 132-147,
445-462, 484-486). -/
theorem c5_duplicate_suppression (cfg : PmCfg) (o : Oracles) (now : ℤ) (s : PMState)
    (pcm : Audio) :
    ((processChunkUltraFast cfg o now s pcm).pipelineRuns = 1 →
      (processChunkUltraFast cfg o now s pcm).st.last_processed_utterance_hash =
        some (processChunkUltraFast cfg o now s pcm).snapshot ∧
      (processChunkUltraFast cfg o now s pcm).st.last_processed_utterance_time = now) ∧
    ((processChunkUltraFast cfg o now s pcm).triggered = true →
      s.last_processed_utterance_hash =
        some (processChunkUltraFast cfg o now s pcm).bufAtCheck →
      now - s.last_processed_utterance_time < 2000 →
      (processChunkUltraFast cfg o now s pcm).bufAtCheck ≠ [] →
      (processChunkUltraFast cfg o now s pcm).result = none ∧
      (processChunkUltraFast cfg o now s pcm).pipelineRuns = 0) := by
  by_cases hip : s.is_processing = true
  · rw [processChunkUltraFast, if_pos (by simpa using hip)]
    exact ⟨fun h1 => absurd h1 (by simp), fun ht => absurd ht (by simp)⟩
  · have hip' : s.is_processing = false := Bool.eq_false_iff.mpr hip
    rw [processChunkUltraFast, if_neg (by simp [hip'])]
    dsimp only
    split_ifs with htrig hdup hstat hpart
    · -- duplicate rejected
      exact ⟨fun h1 => absurd h1 (by simp), fun _ _ _ _ => ⟨rfl, rfl⟩⟩
    · -- pipeline runs (predictive trigger counted): fingerprint
      -- recorded; the second part's hypotheses contradict the failed
      -- duplicate check
      constructor
      · intro _
        constructor
        · rw [(backgroundProcessUtterance_records cfg o now _).1,
            (backgroundProcessUtterance_records cfg o now _).2.2]
        · exact (backgroundProcessUtterance_records cfg o now _).2.1
      · intro _ hstored hwin hne
        exfalso
        apply hdup
        apply isDuplicateUtterance_true
        · rw [chunkPrep_dup_hash]
          exact hstored
        · rw [chunkPrep_dup_time]
          exact hwin
        · exact hne
    · -- pipeline runs (traditional trigger), same argument
      constructor
      · intro _
        constructor
        · rw [(backgroundProcessUtterance_records cfg o now _).1,
            (backgroundProcessUtterance_records cfg o now _).2.2]
        · exact (backgroundProcessUtterance_records cfg o now _).2.1
      · intro _ hstored hwin hne
        exfalso
        apply hdup
        apply isDuplicateUtterance_true
        · rw [chunkPrep_dup_hash]
          exact hstored
        · rw [chunkPrep_dup_time]
          exact hwin
        · exact hne
    · -- no trigger, partial transcript handled
      exact ⟨fun h1 => absurd h1 (by simp), fun ht => absurd ht (by simp)⟩
    · -- no trigger, no partial
      exact ⟨fun h1 => absurd h1 (by simp), fun ht => absurd ht (by simp)⟩

/-- An acoustic-model oracle that reports silence for every sub-frame,
with empty transcription and response collaborators. -/
def oSilence : Oracles :=
  { vadModel := fun _ => some 0
    transcribe := fun _ _ _ => ""
    rag := fun _ => ""
    synth := fun _ => [] }

/-- A session whose detector edge is set (the utterance just ended) and
which is not currently processing. -/
def c1s : PMState :=
  { pmInit with vad := { vadInit with end_of_utterance := true, was_speaking := true } }

theorem c1_single_flight_witness :
    c1s.is_processing = false ∧
    (processChunkUltraFast pmCfgD oSilence 100 c1s [1, 2, 3]).pipelineRuns = 1 ∧
    (processChunkUltraFast pmCfgD oSilence 100 c1s [1, 2, 3]).flagAtRun = true ∧
    (processChunkUltraFast pmCfgD oSilence 100 c1s [1, 2, 3]).st.is_processing = false := by
  have h := c1_single_flight pmCfgD oSilence 100 c1s [1, 2, 3]
  have hruns : (processChunkUltraFast pmCfgD oSilence 100 c1s [1, 2, 3]).pipelineRuns = 1 := by
    decide
  exact ⟨rfl, hruns, (h.2.2.1 hruns).2.1, (h.2.2.1 hruns).2.2⟩

/-- A session like `c1s` whose most recently processed utterance was
the bytes `[1, 2, 3]`, recorded at time 0. -/
def c5s : PMState :=
  { pmInit with
      vad := { vadInit with end_of_utterance := true, was_speaking := true }
      last_processed_utterance_hash := some [1, 2, 3]
      last_processed_utterance_time := 0 }

theorem c5_duplicate_suppression_witness :
    (processChunkUltraFast pmCfgD oSilence 500 c5s [1, 2, 3]).triggered = true ∧
    c5s.last_processed_utterance_hash =
      some (processChunkUltraFast pmCfgD oSilence 500 c5s [1, 2, 3]).bufAtCheck ∧
    ((500 : ℤ) - c5s.last_processed_utterance_time < 2000) ∧
    (processChunkUltraFast pmCfgD oSilence 500 c5s [1, 2, 3]).bufAtCheck ≠ [] ∧
    (processChunkUltraFast pmCfgD oSilence 500 c5s [1, 2, 3]).result = none ∧
    (processChunkUltraFast pmCfgD oSilence 500 c5s [1, 2, 3]).pipelineRuns = 0 := by
  have h := (c5_duplicate_suppression pmCfgD oSilence 500 c5s [1, 2, 3]).2
  have h1 : (processChunkUltraFast pmCfgD oSilence 500 c5s [1, 2, 3]).triggered = true := by
    decide
  have h2 : c5s.last_processed_utterance_hash =
      some (processChunkUltraFast pmCfgD oSilence 500 c5s [1, 2, 3]).bufAtCheck := by
    decide
  have h3 : (500 : ℤ) - c5s.last_processed_utterance_time < 2000 := by decide
  have h4 : (processChunkUltraFast pmCfgD oSilence 500 c5s [1, 2, 3]).bufAtCheck ≠ [] := by
    decide
  exact ⟨h1, h2, h3, h4, (h h1 h2 h3 h4).1, (h h1 h2 h3 h4).2⟩

end CallCenter
